import Mathlib

/-!
# Dicideon gated-registration core: a shallow embedding

This file embeds the core state machine of the Dicideon registration
workflow in Lean 4 and proves (or refutes) the specification's claims
about it.  Persisted stores (CSV files and SQLite tables) are modelled
as explicit lists of records threaded through each operation; wall-clock
timestamps are natural numbers (seconds); the random draws of
`random.randint` and `secrets.token_urlsafe` are supplied as explicit
parameters so that every operation is a total function of its inputs.

Sources embedded:
* `src/utils/request_handler.py` — `initiate_signup_and_send_otp`,
  `regenerate_and_resend_otp`, `verify_otp_and_finalize_request`;
* `src/utils/validator.py` — `check_uniqueness`;
* `src/admin/actions.py` — `approve_request`;
* `src/auth/auth_utils.py` — `add_approved_user`;
* `src/auth/password_reset_utils.py` — `generate_reset_token`,
  `verify_reset_token`, `reset_password`;
* `src/database.py` — `find_user_by_email`, `add_user`.

Notification dispatch (`_send_email`) is an external collaborator: it is
modelled as succeeding.  Its failures in the source raise only after the
store writes of the surrounding operation have been committed, so they
do not change which store states are reachable.
-/

/-- Python runtime errors that the embedded code can raise.  `typeError`
covers arity mismatches at a call site, `nameError` a reference to an
undefined variable, `valueError` covers `datetime.strptime` failures and
explicitly raised `ValueError`s. -/
inductive PyErr where
  | typeError
  | nameError (ident : String)
  | valueError (msg : String)
deriving DecidableEq, Repr

/-- A row of the `users` store (SQLite `users` table of `src/database.py`,
also the frame returned by `auth_utils.load_users`). -/
structure UserRow where
  email : String
  username : String
  password : String
  phone_code : String
  contact_number : String
  country : String
  state : String
  city : String
  organization_name : String
  gender : String
deriving DecidableEq, Repr

/-- A signup-request record with the columns of `_REQUEST_COLUMNS` in
`src/utils/request_handler.py`.  `request_timestamp` is a wall-clock
second count; `otp_expires_at : Option Nat` is `none` when the CSV cell
is empty (the source writes `''` into the cell when it clears the field,
and `datetime.strptime` raises on such a cell). -/
structure RequestRecord where
  request_timestamp : Nat
  status : String
  email : String
  user_id : String
  first_name : String
  middle_name : String
  last_name : String
  country_code : String
  contact_number : String
  date_of_birth : String
  gender : String
  organization_name : String
  country : String
  state : String
  city : String
  user_password : String
  otp : String
  otp_expires_at : Option Nat
deriving DecidableEq, Repr

/-- The signup form data passed to `initiate_signup_and_send_otp`
(`form_data` in `src/main.py`): the profile fields plus the plaintext
password, which `initiate` pops and hashes. -/
structure FormData where
  email : String
  user_id : String
  first_name : String
  middle_name : String
  last_name : String
  country_code : String
  contact_number : String
  date_of_birth : String
  gender : String
  organization_name : String
  country : String
  state : String
  city : String
  password : String
deriving DecidableEq, Repr

/-- The two CSV stores driven by the signup state machine:
`pending_requests.csv` (status `awaiting_otp`) and
`pending_requests_validation.csv` (status `pending`, i.e. awaiting
admin approval). -/
structure SignupStores where
  pending : List RequestRecord
  validation : List RequestRecord
deriving DecidableEq, Repr

/-- Modelled from the spec: `utils.hashing.hash_password` is imported by
the request handler and exercised by `src/tests/test_hashing.py`, but
the `utils/hashing` module itself is not in the source tree.  Per spec
§4.1 it is a one-way hash; it is modelled as an injective tagging
function (the salt, irrelevant to every claim, is omitted). -/
def hash_password (plaintext : String) : String :=
  "$hash$" ++ plaintext

/-- The value drawn by `random.randint(100000, 999999)` in
`initiate_signup_and_send_otp` and `regenerate_and_resend_otp`, as a
function of a uniformly random seed: the image of `Nat` under this map
is exactly the closed interval `[100000, 999999]`, matching `randint`'s
contract of a uniform draw from that interval. -/
def generated_otp_value (seed : Nat) : Nat :=
  100000 + seed % 900000

/-- The one-time code string `str(random.randint(100000, 999999))`. -/
def generated_otp (seed : Nat) : String :=
  toString (generated_otp_value seed)

/-- The request record built by `initiate_signup_and_send_otp` from the
submitted form: timestamp `now`, status `awaiting_otp`, hashed
password, fresh OTP and a 10-minute (600-second) expiry. -/
def mkRequest (fd : FormData) (now seed : Nat) : RequestRecord where
  request_timestamp := now
  status := "awaiting_otp"
  email := fd.email
  user_id := fd.user_id
  first_name := fd.first_name
  middle_name := fd.middle_name
  last_name := fd.last_name
  country_code := fd.country_code
  contact_number := fd.contact_number
  date_of_birth := fd.date_of_birth
  gender := fd.gender
  organization_name := fd.organization_name
  country := fd.country
  state := fd.state
  city := fd.city
  user_password := hash_password fd.password
  otp := generated_otp seed
  otp_expires_at := some (now + 600)

/-- `initiate_signup_and_send_otp` (src/utils/request_handler.py:231):
drops every pending row whose email equals the submitted email
(`df = df[df['email'] != request_data['email']]`), appends the new
record, and returns the OTP expiry.  The OTP email is dispatched after
the store write. -/
def initiate_signup_and_send_otp (st : SignupStores) (fd : FormData) (now seed : Nat) :
    SignupStores × Nat :=
  ({ st with
      pending := st.pending.filter (fun r => r.email != fd.email) ++ [mkRequest fd now seed] },
   now + 600)

/-- `request_row.index[0]` followed by `df.drop(request_index)`: the
first record satisfying `p` together with the list of the remaining
records, or `none` when no record matches. -/
def removeFirstWith (p : RequestRecord → Bool) : List RequestRecord →
    Option (RequestRecord × List RequestRecord)
  | [] => none
  | r :: rs =>
      if p r then some (r, rs)
      else (removeFirstWith p rs).map (fun x => (x.1, r :: x.2))

/-- `df.loc[request_index, ...] = ...`: update the first record
satisfying `p` in place. -/
def updateFirstWith (p : RequestRecord → Bool) (f : RequestRecord → RequestRecord) :
    List RequestRecord → List RequestRecord
  | [] => []
  | r :: rs => if p r then f r :: rs else r :: updateFirstWith p f rs

/-- The row filter used by `regenerate_and_resend_otp` and
`verify_otp_and_finalize_request`:
`(df['email'] == email) & (df['status'] == 'awaiting_otp')`. -/
def isAwaitingOtpFor (email : String) (r : RequestRecord) : Bool :=
  r.email == email && r.status == "awaiting_otp"

/-- `regenerate_and_resend_otp` (src/utils/request_handler.py:261):
requires a pending row in state `awaiting_otp` for the email; overwrites
its OTP and expiry with a fresh draw and `now + 600`, returning the new
expiry; returns `none` (store untouched) when no such row exists. -/
def regenerate_and_resend_otp (st : SignupStores) (email : String) (now seed : Nat) :
    Option Nat × SignupStores :=
  if st.pending.any (isAwaitingOtpFor email) then
    (some (now + 600),
     { st with
        pending := updateFirstWith (isAwaitingOtpFor email)
          (fun r => { r with otp := generated_otp seed, otp_expires_at := some (now + 600) })
          st.pending })
  else (none, st)

/-- The record as rewritten by a successful OTP verification before it
is appended to the validation store: status `pending`, OTP and expiry
cells cleared. -/
def verifiedMove (r : RequestRecord) : RequestRecord :=
  { r with status := "pending", otp := "", otp_expires_at := none }

/-- `verify_otp_and_finalize_request` (src/utils/request_handler.py:288):
takes the first pending row for the email in state `awaiting_otp`
(`request_row.iloc[0]`); parses its expiry (`datetime.strptime` raises a
`ValueError` on an empty cell); on a code mismatch (`str(record['otp'])
!= otp`, a string comparison) or `datetime.now() > expires_at` returns
`false` with the stores untouched; otherwise drops the row from the
pending store, appends the cleared record to the validation store and
returns `true`.  The admin notification is dispatched after the store
writes. -/
def verify_otp_and_finalize_request (st : SignupStores) (email otp : String) (now : Nat) :
    Except PyErr (Bool × SignupStores) :=
  match removeFirstWith (isAwaitingOtpFor email) st.pending with
  | none => .ok (false, st)
  | some (record, rest) =>
      match record.otp_expires_at with
      | none => .error (.valueError "strptime")
      | some expires_at =>
          if record.otp != otp || decide (expires_at < now) then .ok (false, st)
          else .ok (true, ⟨rest, st.validation ++ [verifiedMove record]⟩)

/-! ## Admin approval (`src/admin/actions.py`, `src/auth/auth_utils.py`,
`src/database.py`) -/

/-- The stores touched by `approve_request`: the validation CSV it reads
the request from and the SQLite `users` table that
`auth_utils.add_approved_user` inserts into. -/
structure ApproveState where
  validation : List RequestRecord
  users : List UserRow
deriving DecidableEq, Repr

/-- `database.add_user` (src/database.py:116): the signature takes only
`email`, `username` and `hashed_password`, but the SQL parameter tuple
in its body names `phone_code`, `contact_number`, `country`, `state`,
`city`, `organization_name` and `gender`, none of which are in scope, so
every call raises `NameError` while building the tuple, before the
INSERT runs. -/
def add_user (users : List UserRow) (email username hashed_password : String) :
    Except PyErr (List UserRow) :=
  .error (.nameError "phone_code")

/-- `auth_utils.add_approved_user` (src/auth/auth_utils.py:31): forwards
ten arguments to `database.add_user`, which accepts three, so even a
correctly supplied call raises `TypeError` at that inner call; only
`sqlite3.IntegrityError` would have been converted to the `ValueError`
its caller expects. -/
def add_approved_user (users : List UserRow)
    (email username hashed_password phone_code contact_number country
     state city organization_name gender : String) :
    Except PyErr (List UserRow) :=
  .error .typeError

/-- `approve_request` (src/admin/actions.py:29): looks the request up in
the validation store; when absent returns `(False, "Request not
found.")`.  When present, the source invokes `add_approved_user` with
keyword arguments for only `email`, `username` and `hashed_password`,
omitting the other seven required parameters, so Python raises
`TypeError` at the call site; the surrounding handler catches only
`ValueError`, so the `TypeError` escapes before any store is written.
The result pairs the Python outcome (normal return or escaped
exception) with the resulting stores. -/
def approve_request (st : ApproveState) (request_email : String) :
    Except PyErr (Bool × String) × ApproveState :=
  match st.validation.find? (fun r => r.email == request_email) with
  | none => (.ok (false, "Request not found."), st)
  | some _ => (.error .typeError, st)

/-! ## Uniqueness checker (`src/utils/validator.py`) -/

/-- Modelled from the spec: `auth_utils.load_users` is called by
`check_uniqueness` and mocked in `src/tests/test_validators.py`, but no
definition exists in the source tree.  Per spec §3/§6 it returns the
users table (with `username` renamed to `user_id` by the caller); it is
modelled as the identity on the explicit users store. -/
def load_users (users : List UserRow) : List UserRow :=
  users

/-- Error message for a duplicate email in `check_uniqueness`. -/
def email_dup_msg : String :=
  "This email address is already registered or pending approval."

/-- Error message for a duplicate user id in `check_uniqueness`. -/
def user_id_dup_msg : String :=
  "This User ID is already registered or pending approval."

/-- Error message for a duplicate contact number in `check_uniqueness`. -/
def contact_dup_msg : String :=
  "This contact number is already registered or pending approval."

/-- Step 2 of `check_uniqueness`: the email conflict, detected against
both the users frame and the validation frame. -/
def uniq_email_part (users : List UserRow) (validation : List RequestRecord)
    (email : String) : List String × List (String × String) :=
  if users.any (fun u => u.email == email) || validation.any (fun r => r.email == email) then
    ([email_dup_msg], [("Email Address", email)])
  else ([], [])

/-- Step 3 of `check_uniqueness`: the user-id conflict, detected in the
users frame and — only when absent there (`elif`) — in the validation
frame; the notification names the conflicting row's owner unless that
owner is the submitter. -/
def uniq_user_id_part (users : List UserRow) (validation : List RequestRecord)
    (email user_id : String) : List String × List (String × String) :=
  match users.find? (fun u => u.username == user_id) with
  | some u =>
      ([user_id_dup_msg], if u.email != email then [("User ID", u.email)] else [])
  | none =>
      match validation.find? (fun r => r.user_id == user_id) with
      | some r =>
          ([user_id_dup_msg], if r.email != email then [("User ID", r.email)] else [])
      | none => ([], [])

/-- Step 4 of `check_uniqueness`: the contact-number conflict, detected
only in the validation frame. -/
def uniq_contact_part (validation : List RequestRecord)
    (email contact_number : String) : List String × List (String × String) :=
  match validation.find? (fun r => r.contact_number == contact_number) with
  | some r =>
      ([contact_dup_msg], if r.email != email then [("Contact Number", r.email)] else [])
  | none => ([], [])

/-- `check_uniqueness` (src/utils/validator.py:39).  Email is looked up
in both the users store and the validation store; user id in the users
store and — only when absent there (`elif`) — in the validation store;
the contact number only in the validation store.  Each conflict
appends its error message, and a notification entry maps the field name
to the conflicting record's owner email (skipped for user id and
contact number when that owner is the submitter).  The source returns
`list(set(errors))`; the model applies `List.dedup`, which has the same
members (Python's set iteration order is unspecified). -/
def check_uniqueness (users : List UserRow) (validation : List RequestRecord)
    (email user_id contact_number : String) :
    List String × List (String × String) :=
  let users_df := load_users users
  let emailPart := uniq_email_part users_df validation email
  let idPart := uniq_user_id_part users_df validation email user_id
  let contactPart := uniq_contact_part validation email contact_number
  ((emailPart.1 ++ idPart.1 ++ contactPart.1).dedup,
   emailPart.2 ++ idPart.2 ++ contactPart.2)

/-! ## Password reset flow (`src/auth/password_reset_utils.py`,
`src/database.py`) -/

/-- A row of the SQLite `password_resets` table: owner email, opaque
token, expiry (seconds) and used flag. -/
structure ResetRow where
  email : String
  token : String
  expires_at : Nat
  used : Bool
deriving DecidableEq, Repr

/-- The SQLite stores used by the password-reset flow: the `users`
table and the `password_resets` table. -/
structure AuthDb where
  users : List UserRow
  resets : List ResetRow
deriving DecidableEq, Repr

/-- `database.find_user_by_email` (src/database.py:108):
`SELECT * FROM users WHERE email = ?` with `fetchone()`. -/
def find_user_by_email (db : AuthDb) (email : String) : Option UserRow :=
  db.users.find? (fun u => u.email == email)

/-- `generate_reset_token` (src/auth/password_reset_utils.py:14): when
the email matches no user, returns `None`.  Otherwise, inside a
`try`/`except Exception` block it marks every unused token of that email
used, inserts the fresh token with expiry `now + 3600` and `used =
False`, and returns the token.  Any storage failure inside the block —
modelled by the `fault` flag, and in particular the UNIQUE-constraint
violation when `token` already exists — rolls the transaction back and
is caught, returning `None` with the store unchanged. -/
def generate_reset_token (db : AuthDb) (email token : String) (now : Nat) (fault : Bool) :
    Option String × AuthDb :=
  match find_user_by_email db email with
  | none => (none, db)
  | some _ =>
      if fault || db.resets.any (fun r => r.token == token) then (none, db)
      else
        (some token,
         { db with
            resets :=
              db.resets.map (fun r =>
                if r.email == email && !r.used then { r with used := true } else r)
              ++ [⟨email, token, now + 3600, false⟩] })

/-- `verify_reset_token` (src/auth/password_reset_utils.py:43):
`SELECT email, expires_at, used FROM password_resets WHERE token = ?`
with `fetchone()`; returns the owner email iff the row exists, is
unused and `now <= expires_at`.  Read-only. -/
def verify_reset_token (db : AuthDb) (token : String) (now : Nat) : Option String :=
  match db.resets.find? (fun r => r.token == token) with
  | some r => if !r.used && decide (now ≤ r.expires_at) then some r.email else none
  | none => none

/-- `reset_password` (src/auth/password_reset_utils.py:67): re-runs
`verify_reset_token`; on `None` returns `False` with no change;
otherwise sets the password of every user row with the owning email to
the hash of the new password, marks every row holding the token used,
and returns `True`. -/
def reset_password (db : AuthDb) (token new_password : String) (now : Nat) :
    Bool × AuthDb :=
  match verify_reset_token db token now with
  | none => (false, db)
  | some email =>
      (true,
       { users :=
           db.users.map (fun u =>
             if u.email == email then { u with password := hash_password new_password } else u),
         resets :=
           db.resets.map (fun r =>
             if r.token == token then { r with used := true } else r) })

/-! ## Concrete sample data used by witnesses and counterexamples -/

/-- The signup form of concrete scenario 1 of the spec: email
`"a@x.com"`. -/
def fdA : FormData :=
  ⟨"a@x.com", "auser", "Ann", "", "Lee", "+1", "1234567890", "1990-01-01",
   "F", "OrgA", "US", "CA", "SF", "pw123456"⟩

/-- A seed whose draw is `654321`, the code of concrete scenario 1. -/
def seedA : Nat := 554321

/-- The OTP-verified request of scenario 1, as it sits in the
validation store awaiting admin approval. -/
def reqA : RequestRecord := verifiedMove (mkRequest fdA 0 seedA)

/-- Approval-time stores of scenario 1: the verified request is in the
validation store and no user exists yet. -/
def sampleApprove : ApproveState := ⟨[reqA], []⟩

/-- The user row that approving scenario 1 was meant to create. -/
def userA : UserRow :=
  ⟨"a@x.com", "auser", hash_password "pw123456", "+1", "1234567890",
   "US", "CA", "SF", "OrgA", "F"⟩

/-- Approval-time stores in which a user with the request's email
already exists (the race of claim C9). -/
def sampleApproveDup : ApproveState := ⟨[reqA], [userA]⟩

/-- A registered user who owns the contact number `1234567890`. -/
def ownerRow : UserRow :=
  ⟨"owner@x.com", "owner1", hash_password "ownerpw1", "+1", "1234567890",
   "US", "CA", "SF", "OrgB", "M"⟩

/-! ## C1 / C9: admin approval -/

/-- C1: the claim says `approve(email)` creates a User from the stored
request, removes the request from the pending-approval store and
reports success.  The code cannot do this for any input: whenever the
request exists, the mis-supplied call to `add_approved_user` raises
`TypeError` (only `ValueError` is caught), so `approve_request` escapes
with the exception and both stores are left untouched — no User row is
created and no success is reported. -/
theorem approve_request_always_raises_type_error (st : ApproveState) (e : String)
    (h : ∃ r ∈ st.validation, r.email = e) :
    approve_request st e = (.error .typeError, st) := by
  obtain ⟨r, hr, he⟩ := h
  unfold approve_request
  cases hfind : st.validation.find? (fun x => x.email == e) with
  | none =>
      rw [List.find?_eq_none] at hfind
      exact absurd (by simpa using he) (by simpa using hfind r hr)
  | some _ => rfl

/-- Witness for C1 at the scenario-1 stores. -/
theorem approve_request_always_raises_type_error_witness :
    (∃ r ∈ sampleApprove.validation, r.email = "a@x.com") ∧
      approve_request sampleApprove "a@x.com" = (.error .typeError, sampleApprove) :=
  ⟨by decide, approve_request_always_raises_type_error sampleApprove "a@x.com" (by decide)⟩

/-- C9: the claim says that when a User with the request's email
already exists, `approve(email)` surfaces the duplicate as a non-fatal
user-facing result and leaves the request in place.  At such a store the
code instead escapes with the uncaught `TypeError` raised before the
duplicate check can even run: the result is an exception, not an
`(ok, message)` value (the request is indeed left in place, but only
because the operation crashed first). -/
theorem approve_request_duplicate_user_raises_instead_of_reporting :
    sampleApproveDup.users.any (fun u => u.email == "a@x.com") = true ∧
      approve_request sampleApproveDup "a@x.com" = (.error .typeError, sampleApproveDup) ∧
      ∀ ok msg, (approve_request sampleApproveDup "a@x.com").1 ≠ .ok (ok, msg) := by
  refine ⟨rfl, rfl, ?_⟩
  intro ok msg h
  have hres : (approve_request sampleApproveDup "a@x.com").1 = .error .typeError := rfl
  rw [hres] at h
  exact Except.noConfusion h

/-! ## C10: reset-token issuance never raises -/

/-- C10: `generate_reset_token` returns `None` (with the store
untouched) both when the email matches no user and when any
internal/storage failure strikes the invalidation/insertion transaction
(the `fault` flag, which also covers the UNIQUE-violation on a token
collision); the `try`/`except Exception` block converts every such
failure into the same `None` the unknown-email path returns, so the two
are indistinguishable at the return-value level.  Totality of the model
on these paths reflects that no exception escapes. -/
theorem generate_reset_token_silently_returns_none (db : AuthDb)
    (email token : String) (now : Nat) (fault : Bool)
    (h : find_user_by_email db email = none ∨ fault = true) :
    generate_reset_token db email token now fault = (none, db) := by
  unfold generate_reset_token
  rcases h with h | h
  · rw [h]
  · cases hfind : find_user_by_email db email <;> simp [h]

/-- Witness for C10: an unregistered email on empty stores. -/
theorem generate_reset_token_silently_returns_none_witness :
    (find_user_by_email ⟨[], []⟩ "a@x.com" = none ∨ (false : Bool) = true) ∧
      generate_reset_token ⟨[], []⟩ "a@x.com" "tokA" 0 false = (none, ⟨[], []⟩) :=
  ⟨Or.inl rfl,
   generate_reset_token_silently_returns_none ⟨[], []⟩ "a@x.com" "tokA" 0 false (Or.inl rfl)⟩

/-! ## C8: the range of the one-time code -/

/-- C8 counterexample: the claim says the code is drawn uniformly from
the full range 000000–999999, every value being a possible output.  No
draw of `random.randint(100000, 999999)` is below 100000, so no code
with a leading zero — in particular `"000000"` (value 0) — can ever be
produced by `initiate` or `resend`. -/
theorem generated_otp_value_never_below_100000 :
    ¬ ∃ seed, generated_otp_value seed < 100000 := by
  rintro ⟨s, h⟩
  simp only [generated_otp_value] at h
  omega

/-- C8 (amended): every code drawn by `initiate` and `resend` is the
decimal string of a value in the range 100000–999999 (six digits, no
leading zero), every value in that range is a possible draw, and both
operations set the expiry to `now + 600` seconds (10 minutes). -/
theorem otp_draw_range_and_expiry :
    (∀ seed, 100000 ≤ generated_otp_value seed ∧ generated_otp_value seed ≤ 999999) ∧
    (∀ n, 100000 ≤ n → n ≤ 999999 → ∃ seed, generated_otp_value seed = n) ∧
    (∀ st fd now seed,
        (initiate_signup_and_send_otp st fd now seed).2 = now + 600 ∧
        (mkRequest fd now seed).otp = generated_otp seed ∧
        (mkRequest fd now seed).otp_expires_at = some (now + 600)) ∧
    (∀ st email now seed, st.pending.any (isAwaitingOtpFor email) = true →
        (regenerate_and_resend_otp st email now seed).1 = some (now + 600)) := by
  refine ⟨?_, ?_, ?_, ?_⟩
  · intro seed
    simp only [generated_otp_value]
    omega
  · intro n h1 h2
    refine ⟨n - 100000, ?_⟩
    simp only [generated_otp_value]
    omega
  · intro st fd now seed
    exact ⟨rfl, rfl, rfl⟩
  · intro st email now seed h
    simp [regenerate_and_resend_otp, h]

/-- Witness for C8: the value 654321 is drawable, and a store holding
the scenario-1 request gets a fresh 10-minute expiry from `resend`. -/
theorem otp_draw_range_and_expiry_witness :
    (∃ seed, generated_otp_value seed = 654321) ∧
      (regenerate_and_resend_otp ⟨[mkRequest fdA 0 seedA], []⟩ "a@x.com" 0 7).1 = some 600 := by
  refine ⟨otp_draw_range_and_expiry.2.1 654321 (by decide) (by decide), ?_⟩
  have h := otp_draw_range_and_expiry.2.2.2 ⟨[mkRequest fdA 0 seedA], []⟩ "a@x.com" 0 7
  simpa using h (by decide)


/-! ## C5: the uniqueness checker -/

/-- The error component of the email conflict check is `[email_dup_msg]`
exactly when either store holds the email. -/
theorem uniq_email_part_fst (users : List UserRow) (validation : List RequestRecord)
    (email : String) :
    (uniq_email_part users validation email).1 =
      if users.any (fun u => u.email == email) || validation.any (fun r => r.email == email)
      then [email_dup_msg] else [] := by
  unfold uniq_email_part
  split <;> rfl

/-- The error component of the user-id conflict check is
`[user_id_dup_msg]` exactly when either store holds the user id. -/
theorem uniq_user_id_part_fst (users : List UserRow) (validation : List RequestRecord)
    (email user_id : String) :
    (uniq_user_id_part users validation email user_id).1 =
      if users.any (fun u => u.username == user_id)
          || validation.any (fun r => r.user_id == user_id)
      then [user_id_dup_msg] else [] := by
  unfold uniq_user_id_part
  rcases hu : users.find? (fun u => u.username == user_id) with _ | u
  · rw [hu]
    rcases hv : validation.find? (fun r => r.user_id == user_id) with _ | r
    · rw [hv]
      have h1 : users.any (fun u => u.username == user_id) = false := by
        simp only [List.any_eq_false]
        exact fun x hx => by simpa using List.find?_eq_none.mp hu x hx
      have h2 : validation.any (fun r => r.user_id == user_id) = false := by
        simp only [List.any_eq_false]
        exact fun x hx => by simpa using List.find?_eq_none.mp hv x hx
      simp [h1, h2]
    · rw [hv]
      have h2 : validation.any (fun r => r.user_id == user_id) = true :=
        List.any_eq_true.mpr
          ⟨r, List.mem_of_find?_eq_some hv, by simpa using List.find?_some hv⟩
      simp [h2]
  · rw [hu]
    have h1 : users.any (fun u => u.username == user_id) = true :=
      List.any_eq_true.mpr
        ⟨u, List.mem_of_find?_eq_some hu, by simpa using List.find?_some hu⟩
    simp [h1]

/-- The error component of the contact-number conflict check is
`[contact_dup_msg]` exactly when the validation store holds the
contact number; the users store is never consulted. -/
theorem uniq_contact_part_fst (validation : List RequestRecord)
    (email contact_number : String) :
    (uniq_contact_part validation email contact_number).1 =
      if validation.any (fun r => r.contact_number == contact_number)
      then [contact_dup_msg] else [] := by
  unfold uniq_contact_part
  rcases hc : validation.find? (fun r => r.contact_number == contact_number) with _ | r
  · rw [hc]
    have h : validation.any (fun r => r.contact_number == contact_number) = false := by
      simp only [List.any_eq_false]
      exact fun x hx => by simpa using List.find?_eq_none.mp hc x hx
    simp [h]
  · rw [hc]
    have h : validation.any (fun r => r.contact_number == contact_number) = true :=
      List.any_eq_true.mpr
        ⟨r, List.mem_of_find?_eq_some hc, by simpa using List.find?_some hc⟩
    simp [h]

/-- C5 counterexample: the claim says each of the three fields is
queried against both the User store and the signup-request store.  With
a users store owning contact number `1234567890` and an empty request
store, a submission reusing exactly that contact number comes back with
no error and no notification: the contact number is never compared
against the User store. -/
theorem check_uniqueness_ignores_user_contact_number :
    (∃ u ∈ [ownerRow], u.contact_number = "1234567890") ∧
      check_uniqueness [ownerRow] [] "new@x.com" "newuser" "1234567890" = ([], []) := by
  exact ⟨by decide, by decide⟩

/-- C5 (amended): `check_uniqueness` checks the three conflicts
independently and returns all applicable error messages together,
deduplicated, as a pure read of the two stores: the email and user-id
conflicts are detected against both the User store and the (post-OTP)
request store, but the contact-number conflict only against the request
store. -/
theorem check_uniqueness_errors_characterization (users : List UserRow)
    (validation : List RequestRecord) (email user_id contact_number : String) :
    (email_dup_msg ∈ (check_uniqueness users validation email user_id contact_number).1 ↔
        (users.any (fun u => u.email == email)
          || validation.any (fun r => r.email == email)) = true) ∧
    (user_id_dup_msg ∈ (check_uniqueness users validation email user_id contact_number).1 ↔
        (users.any (fun u => u.username == user_id)
          || validation.any (fun r => r.user_id == user_id)) = true) ∧
    (contact_dup_msg ∈ (check_uniqueness users validation email user_id contact_number).1 ↔
        validation.any (fun r => r.contact_number == contact_number) = true) ∧
    (check_uniqueness users validation email user_id contact_number).1.Nodup := by
  have hne1 : email_dup_msg ≠ user_id_dup_msg := by decide
  have hne2 : email_dup_msg ≠ contact_dup_msg := by decide
  have hne3 : user_id_dup_msg ≠ contact_dup_msg := by decide
  have hfst : (check_uniqueness users validation email user_id contact_number).1 =
      ((uniq_email_part users validation email).1
        ++ (uniq_user_id_part users validation email user_id).1
        ++ (uniq_contact_part validation email contact_number).1).dedup := rfl
  rw [hfst, uniq_email_part_fst, uniq_user_id_part_fst, uniq_contact_part_fst]
  refine ⟨?_, ?_, ?_, List.nodup_dedup _⟩ <;>
    split_ifs with h1 h2 h3 <;>
    simp_all [hne1, hne2, hne3, Ne.symm hne1, Ne.symm hne2, Ne.symm hne3]

/-! ## C6 / C7: the password-reset token lifecycle -/

/-- Searching reset rows by token commutes with any row map that
preserves the token field. -/
theorem find?_token_map (f : ResetRow → ResetRow) (hf : ∀ r, (f r).token = r.token)
    (l : List ResetRow) (t : String) :
    (l.map f).find? (fun r => r.token == t) =
      (l.find? (fun r => r.token == t)).map f := by
  rw [List.find?_map]
  have hp : ((fun r : ResetRow => r.token == t) ∘ f) = fun r : ResetRow => r.token == t := by
    funext r
    simp [Function.comp, hf]
  rw [hp]

/-- With pairwise-distinct tokens (the UNIQUE constraint of the
`password_resets` table), the row found for a token is the member
holding it. -/
theorem find?_token_of_nodup (l : List ResetRow) (t : String)
    (hnd : (l.map (fun r => r.token)).Nodup)
    (r0 : ResetRow) (h0 : r0 ∈ l) (ht : r0.token = t) :
    l.find? (fun r => r.token == t) = some r0 := by
  induction l with
  | nil => cases h0
  | cons a l ih =>
    simp only [List.map_cons, List.nodup_cons] at hnd
    rcases List.mem_cons.mp h0 with rfl | h0'
    · simp [List.find?_cons_of_pos, ht]
    · have hne : ¬ a.token = t := by
        intro hat
        exact hnd.1 (by rw [hat, ← ht]; exact List.mem_map_of_mem _ h0')
      rw [List.find?_cons_of_neg _ (by simpa using hne)]
      exact ih hnd.2 h0'

/-- C6: issuing a new reset token for an email first marks every unused
token of that email used and then inserts the fresh token with a
one-hour expiry, so afterwards the old token's `verify` returns `none`
at every time, the new token's `verify` returns the owning email
exactly until its expiry, and the new token is the only active one for
the email. -/
theorem reset_token_invalidation (db : AuthDb) (email t0 t1 : String) (now : Nat)
    (huser : (find_user_by_email db email).isSome = true)
    (hnd : (db.resets.map (fun r => r.token)).Nodup)
    (r0 : ResetRow) (hr0 : r0 ∈ db.resets) (ht0 : r0.token = t0)
    (he0 : r0.email = email) (hu0 : r0.used = false)
    (hfresh : ∀ r ∈ db.resets, r.token ≠ t1) :
    ∃ db', generate_reset_token db email t1 now false = (some t1, db') ∧
      (∀ n, verify_reset_token db' t0 n = none) ∧
      (∀ n, verify_reset_token db' t1 n = if n ≤ now + 3600 then some email else none) ∧
      (∀ r ∈ db'.resets, r.email = email → r.used = false → r.token = t1) := by
  obtain ⟨u, hu⟩ := Option.isSome_iff_exists.mp huser
  have hcoll : db.resets.any (fun r => r.token == t1) = false := by
    simp only [List.any_eq_false]
    exact fun r hr => by simpa using hfresh r hr
  set inv : ResetRow → ResetRow :=
    fun r => if r.email == email && !r.used then { r with used := true } else r with hinv
  have hinvtok : ∀ r, (inv r).token = r.token := by
    intro r
    simp only [hinv]
    split <;> rfl
  set newRow : ResetRow := ⟨email, t1, now + 3600, false⟩ with hnew
  refine ⟨⟨db.users, db.resets.map inv ++ [newRow]⟩, ?_, ?_, ?_, ?_⟩
  · unfold generate_reset_token
    rw [hu, hcoll]
    rfl
  · intro n
    unfold verify_reset_token
    rw [List.find?_append, find?_token_map inv hinvtok,
      find?_token_of_nodup db.resets t0 hnd r0 hr0 ht0]
    have : inv r0 = { r0 with used := true } := by
      simp [hinv, he0, hu0]
    simp [this]
  · intro n
    unfold verify_reset_token
    have hleft : (db.resets.map inv).find? (fun r => r.token == t1) = none := by
      rw [find?_token_map inv hinvtok]
      rw [List.find?_eq_none.mpr (fun r hr => by simpa using hfresh r hr)]
      rfl
    rw [List.find?_append, hleft]
    by_cases hn : n ≤ now + 3600 <;> simp [hnew, hn]
  · intro r hr hre hru
    rcases List.mem_append.mp hr with hr' | hr'
    · obtain ⟨r', hr'', rfl⟩ := List.mem_map.mp hr'
      by_cases hc : (r'.email == email && !r'.used) = true
      · have hc' : r'.email = email ∧ r'.used = false := by simpa using hc
        exact absurd hru (by simp [hinv, hc'.1, hc'.2])
      · have : inv r' = r' := by simp [hinv]; intro h1 h2; exact absurd (by simp [h1, h2]) hc
        rw [this] at hre hru
        exact absurd (by simp [hre, hru]) hc
    · rw [List.mem_singleton.mp hr']

/-- Witness for C6: one user, one unused token `tokA`; issuing `tokB`
invalidates `tokA` and activates `tokB` for an hour. -/
theorem reset_token_invalidation_witness :
    ∃ db', generate_reset_token ⟨[userA], [⟨"a@x.com", "tokA", 5000, false⟩]⟩
        "a@x.com" "tokB" 100 false = (some "tokB", db') ∧
      (∀ n, verify_reset_token db' "tokA" n = none) ∧
      (∀ n, verify_reset_token db' "tokB" n = if n ≤ 100 + 3600 then some "a@x.com" else none) ∧
      (∀ r ∈ db'.resets, r.email = "a@x.com" → r.used = false → r.token = "tokB") :=
  reset_token_invalidation ⟨[userA], [⟨"a@x.com", "tokA", 5000, false⟩]⟩
    "a@x.com" "tokA" "tokB" 100 (by decide) (by decide)
    ⟨"a@x.com", "tokA", 5000, false⟩ (by decide) rfl rfl rfl (by decide)

/-- Searching user rows by email commutes with any row map that
preserves the email field. -/
theorem find?_email_map (g : UserRow → UserRow) (hg : ∀ u, (g u).email = u.email)
    (l : List UserRow) (e : String) :
    (l.map g).find? (fun u => u.email == e) =
      (l.find? (fun u => u.email == e)).map g := by
  rw [List.find?_map]
  have hp : ((fun u : UserRow => u.email == e) ∘ g) = fun u : UserRow => u.email == e := by
    funext u
    simp [Function.comp, hg]
  rw [hp]

/-- When `verify_reset_token` rejects the token, `reset_password`
returns `false` and leaves the store untouched. -/
theorem reset_password_of_verify_none (db : AuthDb) (token pw : String) (now : Nat)
    (h : verify_reset_token db token now = none) :
    reset_password db token pw now = (false, db) := by
  unfold reset_password
  rw [h]

/-- C7: consuming a valid (existing, unused, unexpired) token updates
the owning user's stored hash to the hash of the new password, marks
the token used and returns true; a second consume with the same token
then returns false and leaves the store as it was; and consuming any
invalid token returns false with no change at all. -/
theorem reset_password_single_use (db : AuthDb) (token pw pw2 : String) (now now2 : Nat) :
    (∀ email, verify_reset_token db token now = some email →
        reset_password db token pw now =
          (true,
           ⟨db.users.map (fun u =>
               if u.email == email then { u with password := hash_password pw } else u),
            db.resets.map (fun r =>
               if r.token == token then { r with used := true } else r)⟩) ∧
        find_user_by_email (reset_password db token pw now).2 email =
          Option.map (fun u => { u with password := hash_password pw })
            (find_user_by_email db email) ∧
        reset_password (reset_password db token pw now).2 token pw2 now2 =
          (false, (reset_password db token pw now).2)) ∧
    (verify_reset_token db token now = none →
        reset_password db token pw now = (false, db)) := by
  constructor
  · intro email hv
    have hres : reset_password db token pw now =
        (true,
         ⟨db.users.map (fun u =>
             if u.email == email then { u with password := hash_password pw } else u),
          db.resets.map (fun r =>
             if r.token == token then { r with used := true } else r)⟩) := by
      unfold reset_password
      rw [hv]
    refine ⟨hres, ?_, ?_⟩
    · rw [hres]
      unfold find_user_by_email
      rw [find?_email_map _ (fun u => by by_cases h : (u.email == email) = true <;> simp [h])]
      cases hf : db.users.find? (fun u => u.email == email) with
      | none => rfl
      | some u =>
          have hue : u.email = email := by simpa using List.find?_some hf
          simp [hue]
    · have hv2 : verify_reset_token (reset_password db token pw now).2 token now2 = none := by
        rw [hres]
        unfold verify_reset_token
        rw [find?_token_map _ (fun r => by by_cases h : (r.token == token) = true <;> simp [h])]
        cases hf : db.resets.find? (fun r => r.token == token) with
        | none => rfl
        | some r =>
            have hrt : r.token = token := by simpa using List.find?_some hf
            simp [hrt]
      exact reset_password_of_verify_none _ _ _ _ hv2
  · exact fun hnone => reset_password_of_verify_none _ _ _ _ hnone

/-- Witness for C7: consuming unused token `tokA` before its expiry
succeeds; consuming the unknown token `tokB` fails with no change. -/
theorem reset_password_single_use_witness :
    (reset_password ⟨[userA], [⟨"a@x.com", "tokA", 5000, false⟩]⟩ "tokA" "pwNew123" 10).1
        = true ∧
      reset_password ⟨[userA], [⟨"a@x.com", "tokA", 5000, false⟩]⟩ "tokB" "pwNew123" 10 =
        (false, ⟨[userA], [⟨"a@x.com", "tokA", 5000, false⟩]⟩) := by
  constructor
  · have h := (reset_password_single_use ⟨[userA], [⟨"a@x.com", "tokA", 5000, false⟩]⟩
      "tokA" "pwNew123" "pw2x" 10 20).1 "a@x.com" (by decide)
    rw [h.1]
  · exact (reset_password_single_use ⟨[userA], [⟨"a@x.com", "tokA", 5000, false⟩]⟩
      "tokB" "pwNew123" "pw2x" 10 20).2 (by decide)

/-! ## C2 / C3 / C4: the OTP verification state machine -/

/-- When no record satisfies `p`, there is no first match. -/
theorem removeFirstWith_eq_none (p : RequestRecord → Bool) (l : List RequestRecord)
    (hl : ∀ a ∈ l, p a = false) : removeFirstWith p l = none := by
  induction l with
  | nil => rfl
  | cons a l ih =>
      unfold removeFirstWith
      rw [hl a (List.mem_cons_self a l), ih (fun x hx => hl x (List.mem_cons_of_mem a hx))]
      rfl

/-- When every record of `A` fails `p` and `r` satisfies it, the first
match in `A ++ [r]` is `r`, and removing it leaves `A`. -/
theorem removeFirstWith_append_singleton (p : RequestRecord → Bool)
    (A : List RequestRecord) (r : RequestRecord)
    (hA : ∀ a ∈ A, p a = false) (hr : p r = true) :
    removeFirstWith p (A ++ [r]) = some (r, A) := by
  induction A with
  | nil => simp [removeFirstWith, hr]
  | cons a A ih =>
      have ha : p a = false := hA a (List.mem_cons_self a A)
      have ih' := ih (fun x hx => hA x (List.mem_cons_of_mem a hx))
      simp [removeFirstWith, ha, ih']

/-- Every row kept by `initiate`'s replacement filter has a different
email, hence fails the `awaiting_otp`-for-this-email test. -/
theorem filter_ne_email_not_awaiting (l : List RequestRecord) (e : String) :
    ∀ a ∈ l.filter (fun r => r.email != e), isAwaitingOtpFor e a = false := by
  intro a ha
  have hne : (a.email != e) = true := (List.mem_filter.mp ha).2
  simp only [isAwaitingOtpFor]
  simp only [bne_iff_ne, ne_eq] at hne
  simp [hne]

/-- The record freshly written by `initiate` is in state `awaiting_otp`
for its own email. -/
theorem mkRequest_isAwaitingOtp (fd : FormData) (now seed : Nat) :
    isAwaitingOtpFor fd.email (mkRequest fd now seed) = true := by
  simp [isAwaitingOtpFor, mkRequest]

/-- C2: after `initiate` writes a request with code `c` and expiry
`now + 600`, a `verify` of `c` at or before the expiry succeeds exactly
once: it moves the request out of the pending store into the validation
store with status `pending` and the OTP/expiry cells cleared, and any
second `verify` for that email — with the same code or any other —
returns false and changes nothing. -/
theorem otp_roundtrip_verifies_exactly_once (st : SignupStores) (fd : FormData)
    (now seed now2 : Nat) (h2 : now2 ≤ now + 600) :
    verify_otp_and_finalize_request (initiate_signup_and_send_otp st fd now seed).1
        fd.email (generated_otp seed) now2 =
      .ok (true, ⟨st.pending.filter (fun r => r.email != fd.email),
                  st.validation ++ [verifiedMove (mkRequest fd now seed)]⟩) ∧
    (verifiedMove (mkRequest fd now seed)).status = "pending" ∧
    (verifiedMove (mkRequest fd now seed)).otp = "" ∧
    (verifiedMove (mkRequest fd now seed)).otp_expires_at = none ∧
    (∀ code now3,
        verify_otp_and_finalize_request
          ⟨st.pending.filter (fun r => r.email != fd.email),
           st.validation ++ [verifiedMove (mkRequest fd now seed)]⟩ fd.email code now3 =
        .ok (false, ⟨st.pending.filter (fun r => r.email != fd.email),
                     st.validation ++ [verifiedMove (mkRequest fd now seed)]⟩)) := by
  have hA := filter_ne_email_not_awaiting st.pending fd.email
  refine ⟨?_, rfl, rfl, rfl, ?_⟩
  · have hst1 : (initiate_signup_and_send_otp st fd now seed).1 =
        ⟨st.pending.filter (fun r => r.email != fd.email) ++ [mkRequest fd now seed],
         st.validation⟩ := rfl
    rw [hst1]
    unfold verify_otp_and_finalize_request
    rw [removeFirstWith_append_singleton _ _ _ hA (mkRequest_isAwaitingOtp fd now seed)]
    have hexp : decide (now + 600 < now2) = false := by
      simp only [decide_eq_false_iff_not, not_lt]
      omega
    simp [mkRequest, verifiedMove, hexp]
  · intro code now3
    unfold verify_otp_and_finalize_request
    rw [removeFirstWith_eq_none _ _ hA]

/-- Witness for C2: scenario 1 — submit `a@x.com` with code `654321`,
verify immediately. -/
theorem otp_roundtrip_verifies_exactly_once_witness :
    0 ≤ 0 + 600 ∧
      verify_otp_and_finalize_request (initiate_signup_and_send_otp ⟨[], []⟩ fdA 0 seedA).1
          fdA.email (generated_otp seedA) 0 =
        .ok (true, ⟨[], [verifiedMove (mkRequest fdA 0 seedA)]⟩) :=
  ⟨by omega, (otp_roundtrip_verifies_exactly_once ⟨[], []⟩ fdA 0 seedA 0 (by omega)).1⟩

/-- C3: whenever the submitted email has no `awaiting_otp` pending row,
or the first such row's stored code differs from the submitted code
(compared as strings), or the current time is past the row's expiry,
`verify` returns false and leaves both stores exactly as they were.
(The hypothesis also asks the found row's expiry cell to be populated,
as every row written by `initiate`/`resend` is; on an empty cell the
source's `strptime` raises instead.) -/
theorem verify_mismatch_leaves_store_unchanged (st : SignupStores)
    (email code : String) (now : Nat)
    (h : ∀ r rest, removeFirstWith (isAwaitingOtpFor email) st.pending = some (r, rest) →
        ∃ e, r.otp_expires_at = some e ∧ (r.otp ≠ code ∨ e < now)) :
    verify_otp_and_finalize_request st email code now = .ok (false, st) := by
  unfold verify_otp_and_finalize_request
  cases hrm : removeFirstWith (isAwaitingOtpFor email) st.pending with
  | none => rfl
  | some pr =>
      obtain ⟨r, rest⟩ := pr
      obtain ⟨e, he, hcond⟩ := h r rest hrm
      rcases hcond with hc | hc
      · have hb : (r.otp != code) = true := by simpa using hc
        simp [he, hb]
      · simp [he, hc]

/-- Witness for C3: the wrong code `000000` against the scenario-1
pending request changes nothing. -/
theorem verify_mismatch_leaves_store_unchanged_witness :
    (∀ r rest,
        removeFirstWith (isAwaitingOtpFor "a@x.com") [mkRequest fdA 0 seedA] = some (r, rest) →
        ∃ e, r.otp_expires_at = some e ∧ (r.otp ≠ "000000" ∨ e < 0)) ∧
      verify_otp_and_finalize_request ⟨[mkRequest fdA 0 seedA], []⟩ "a@x.com" "000000" 0 =
        .ok (false, ⟨[mkRequest fdA 0 seedA], []⟩) := by
  have hside : ∀ r rest,
      removeFirstWith (isAwaitingOtpFor "a@x.com") [mkRequest fdA 0 seedA] = some (r, rest) →
      ∃ e, r.otp_expires_at = some e ∧ (r.otp ≠ "000000" ∨ e < 0) := by
    intro r rest hr
    rw [show removeFirstWith (isAwaitingOtpFor "a@x.com") [mkRequest fdA 0 seedA] =
        some (mkRequest fdA 0 seedA, []) by decide] at hr
    cases hr
    exact ⟨600, rfl, Or.inl (by decide)⟩
  exact ⟨hside,
    verify_mismatch_leaves_store_unchanged ⟨[mkRequest fdA 0 seedA], []⟩ "a@x.com" "000000" 0 hside⟩

/-- C4 counterexample: the claim says that after two successive
submissions for the same email only the second request's OTP verifies
and the first request's code, even unexpired, makes `verify` return
false.  When the second draw happens to repeat the first (here both
draws give `654321`), the first request's code still verifies: the
replacement is keyed by email, not by code, and the codes are equal as
strings. -/
theorem replaced_request_old_code_can_still_verify :
    Except.map (fun p => p.1)
      (verify_otp_and_finalize_request
        (initiate_signup_and_send_otp
          (initiate_signup_and_send_otp ⟨[], []⟩ fdA 0 seedA).1 fdA 0 seedA).1
        "a@x.com" (generated_otp seedA) 0) = .ok true := by
  rfl

/-- C4 (amended): a second `initiate` for the same email replaces the
prior pending request — afterwards exactly one pending row holds that
email, namely the second request's — so the second request's code
verifies (before its expiry), while the first request's code makes
`verify` return false provided it differs from the freshly drawn second
code (the two draws coincide with probability 1/900000, and then the
old code string still verifies). -/
theorem second_submission_replaces_first (st : SignupStores) (fd1 fd2 : FormData)
    (now1 seed1 now2 seed2 now3 : Nat)
    (hemail : fd2.email = fd1.email) (hexp : now3 ≤ now2 + 600) :
    (initiate_signup_and_send_otp (initiate_signup_and_send_otp st fd1 now1 seed1).1
        fd2 now2 seed2).1.pending.filter (fun r => r.email == fd1.email)
      = [mkRequest fd2 now2 seed2] ∧
    (generated_otp seed1 ≠ generated_otp seed2 →
      verify_otp_and_finalize_request
          (initiate_signup_and_send_otp (initiate_signup_and_send_otp st fd1 now1 seed1).1
            fd2 now2 seed2).1 fd1.email (generated_otp seed1) now3
        = .ok (false,
            (initiate_signup_and_send_otp (initiate_signup_and_send_otp st fd1 now1 seed1).1
              fd2 now2 seed2).1)) ∧
    verify_otp_and_finalize_request
        (initiate_signup_and_send_otp (initiate_signup_and_send_otp st fd1 now1 seed1).1
          fd2 now2 seed2).1 fd1.email (generated_otp seed2) now3
      = .ok (true, ⟨st.pending.filter (fun r => r.email != fd1.email),
                    st.validation ++ [verifiedMove (mkRequest fd2 now2 seed2)]⟩) := by
  have hAmem : ∀ a ∈ st.pending.filter (fun r => r.email != fd1.email),
      (a.email != fd1.email) = true :=
    fun a ha => (List.mem_filter.mp ha).2
  have hA := filter_ne_email_not_awaiting st.pending fd1.email
  have e1 : List.filter (fun r => r.email != fd2.email)
      (List.filter (fun r => r.email != fd1.email) st.pending)
      = List.filter (fun r => r.email != fd1.email) st.pending :=
    List.filter_eq_self.mpr (fun a ha => by rw [hemail]; exact hAmem a ha)
  have e2 : List.filter (fun r => r.email != fd2.email) [mkRequest fd1 now1 seed1] = [] := by
    simp [mkRequest, hemail]
  have hst2 : (initiate_signup_and_send_otp (initiate_signup_and_send_otp st fd1 now1 seed1).1
      fd2 now2 seed2).1 =
      ⟨List.filter (fun r => r.email != fd1.email) st.pending ++ [mkRequest fd2 now2 seed2],
       st.validation⟩ := by
    have hraw : (initiate_signup_and_send_otp (initiate_signup_and_send_otp st fd1 now1 seed1).1
        fd2 now2 seed2).1 =
        ⟨List.filter (fun r => r.email != fd2.email)
           (List.filter (fun r => r.email != fd1.email) st.pending ++ [mkRequest fd1 now1 seed1])
         ++ [mkRequest fd2 now2 seed2], st.validation⟩ := rfl
    rw [hraw, List.filter_append, e1, e2, List.append_nil]
  have hrec2 : isAwaitingOtpFor fd1.email (mkRequest fd2 now2 seed2) = true := by
    simp [isAwaitingOtpFor, mkRequest, hemail]
  refine ⟨?_, ?_, ?_⟩
  · rw [hst2]
    show List.filter (fun r => r.email == fd1.email)
        (List.filter (fun r => r.email != fd1.email) st.pending ++ [mkRequest fd2 now2 seed2])
      = [mkRequest fd2 now2 seed2]
    rw [List.filter_append]
    have hnil : List.filter (fun r => r.email == fd1.email)
        (List.filter (fun r => r.email != fd1.email) st.pending) = [] := by
      rw [List.filter_eq_nil_iff]
      intro a ha
      have := hAmem a ha
      simp only [bne_iff_ne, ne_eq] at this
      simp [this]
    rw [hnil]
    simp [mkRequest, hemail]
  · intro hne
    rw [hst2]
    unfold verify_otp_and_finalize_request
    rw [removeFirstWith_append_singleton _ _ _ hA hrec2]
    have hb : (generated_otp seed2 != generated_otp seed1) = true := by
      simpa using (Ne.symm hne)
    simp [mkRequest, hb]
  · rw [hst2]
    unfold verify_otp_and_finalize_request
    rw [removeFirstWith_append_singleton _ _ _ hA hrec2]
    have hexp' : decide (now2 + 600 < now3) = false := by
      simp only [decide_eq_false_iff_not, not_lt]
      omega
    simp [mkRequest, verifiedMove, hexp']

/-- Witness for C4: scenario 2 — two back-to-back submissions for
`a@x.com` with distinct draws; only the second code verifies. -/
theorem second_submission_replaces_first_witness :
    (initiate_signup_and_send_otp (initiate_signup_and_send_otp ⟨[], []⟩ fdA 0 seedA).1
        fdA 0 0).1.pending.filter (fun r => r.email == fdA.email) = [mkRequest fdA 0 0] ∧
      verify_otp_and_finalize_request
          (initiate_signup_and_send_otp (initiate_signup_and_send_otp ⟨[], []⟩ fdA 0 seedA).1
            fdA 0 0).1 fdA.email (generated_otp seedA) 0
        = .ok (false,
            (initiate_signup_and_send_otp (initiate_signup_and_send_otp ⟨[], []⟩ fdA 0 seedA).1
              fdA 0 0).1) ∧
      verify_otp_and_finalize_request
          (initiate_signup_and_send_otp (initiate_signup_and_send_otp ⟨[], []⟩ fdA 0 seedA).1
            fdA 0 0).1 fdA.email (generated_otp 0) 0
        = .ok (true, ⟨[], [verifiedMove (mkRequest fdA 0 0)]⟩) := by
  have h := second_submission_replaces_first ⟨[], []⟩ fdA fdA 0 seedA 0 0 0 rfl (by omega)
  exact ⟨h.1, h.2.1 (by decide), h.2.2⟩
